import Mathlib

/-!
# Verification of diskaudit (src/diskaudit.py)

Shallow embedding of the computational core of `diskaudit.py`, a disk and
database usage auditing script, together with proofs of its specified
properties.

Modelling conventions:

* Byte counts are `Nat`.  The Python source mixes `int` and `float` values,
  but every quantity is an integral byte count obtained from `du -sb` or a SQL
  aggregate; division by the scale constants 1024, 1024², 1024³, 1024⁴ (all
  powers of two) is exact in binary floating point for these magnitudes, so
  the exact rational model below coincides with the source's float arithmetic.
* Python's `'{0:.2f}'.format(x)` rounds the (exact) quotient to two decimal
  places with round-half-to-even; `formatTwoDec` implements that rounding on
  exact integer arithmetic.
* External collaborators (the filesystem, `du`, `wp db query`, the multisite
  lookup tool) are modelled as data supplied in an `InstallEnv` record: the
  existence of the production/staging paths, the measured sizes (`none`
  models the `IOError` the source catches), the scalar query results
  (`QueryResult.null` models the SQL `NULL` string), and the raw output of
  the multisite lookup.  `subprocess` output, `str` and `bytes` are all
  modelled as `String`/`Nat` values.
* The `float('NULL')` call in `get_prod_db_data` raises `ValueError` in the
  source; the embedding returns `Option Nat` with `none` for that error, and
  the per-install collector propagates it (the run aborts).
-/

namespace DiskAudit

/-- Left-pad a two-digit decimal fraction: `7 ↦ "07"`, `45 ↦ "45"`. -/
def padTwo (n : Nat) : String :=
  if n < 10 then "0" ++ toString n else toString n

/-- The quotient `num / den` rounded to a whole number of hundredths, half
to even. -/
def roundHundredths (num den : Nat) : Nat :=
  let scaled := num * 100
  let q := scaled / den
  let r := scaled % den
  if den < 2 * r then q + 1
  else if 2 * r < den then q
  else if q % 2 == 0 then q else q + 1

/-- Render `num / den` with exactly two decimal digits, rounding half to
even, exactly as Python's `'{0:.2f}'.format(num / den)` does when the float
quotient is exact (which it is here: `den` is always a power of two). -/
def formatTwoDec (num den : Nat) : String :=
  toString (roundHundredths num den / 100) ++ "." ++
    padTwo (roundHundredths num den % 100)

/-- Embedding of `fix_format` (src/diskaudit.py lines 60–78): format a raw
byte count into a human-readable string with a B/K/M/G/T suffix.  The
`if value < 1024 / elif value >= 1024 and value < 1048576 / …` ladder of the
source is the nested conditional below (in the `elif` chain each lower bound
is implied by the previous test failing). -/
def fix_format (value : Nat) : String :=
  if value < 1024 then
    toString value ++ "B"
  else if value < 1048576 then
    formatTwoDec value 1024 ++ "K"
  else if value < 1073741824 then
    formatTwoDec value 1048576 ++ "M"
  else if value < 1099511627776 then
    formatTwoDec value 1073741824 ++ "G"
  else
    formatTwoDec value 1099511627776 ++ "T"

example : fix_format 1023 = "1023B" := by decide
example : fix_format 1024 = "1.00K" := by decide
example : fix_format 1048576 = "1.00M" := by decide
example : fix_format 1073741824 = "1.00G" := by decide
example : fix_format 1152 = "1.12K" := by decide
example : fix_format 1536 = "1.50K" := by decide
example : fix_format 1099511627776 = "1.00T" := by decide

/-! ## External collaborators and the per-install data model -/

/-- Result of a scalar SQL aggregate query (`run_cli_query`): either a
numeric value or the SQL `NULL` marker (the literal string `'NULL'` in the
source's output comparison). -/
inductive QueryResult where
  | num (n : Nat)
  | null
deriving DecidableEq, Repr

/-- The external world observed for one install: filesystem path existence,
`du -sb` measurement outcomes (`none` models the `IOError` caught by the
source), the `sudo du -sb /nas/mysql/wp_<install>` measurement, the two
scalar query results, and the raw output of the multisite lookup tool. -/
structure InstallEnv where
  prod_path_exists : Bool
  prod_measure : Option Nat
  stage_path_exists : Bool
  stage_measure : Option Nat
  db_du_measure : Nat
  prod_db_query : QueryResult
  stage_db_query : QueryResult
  multisite_output : String
deriving DecidableEq, Repr

/-- Embedding of `check_multisite` (lines 115–120): the lookup tool's output
is compared against the truthy sentinel `'1'`; any other output leaves the
`is_multisite` parameter in place.  In the source `is_multisite` is a
default parameter whose value is `"No"`; callers never override it, so the
embedding passes `"No"` explicitly at the single call site. -/
def check_multisite (mu : String) (is_multisite : String) : String :=
  if mu == "1" then "Yes" else is_multisite

/-- Embedding of `get_prod_du` (lines 133–146): 0 when the production path
does not exist, 0 when the measurement raises `IOError`, otherwise the
measured size. -/
def get_prod_du (e : InstallEnv) : Nat :=
  if !e.prod_path_exists then 0
  else
    match e.prod_measure with
    | some m => m
    | none => 0

/-- Embedding of `get_prod_db_du` (lines 149–156): the database directory is
measured only when the provider tag is exactly `"google"`; any other tag
yields 0. -/
def get_prod_db_du (vendor : String) (e : InstallEnv) : Nat :=
  if vendor == "google" then e.db_du_measure else 0

/-- Embedding of `get_prod_db_data` (lines 159–169): the source calls
`float(run_cli_query(...))` with no `NULL` handling, so a `NULL` aggregate
result raises `ValueError`; `none` models that error. -/
def get_prod_db_data (e : InstallEnv) : Option Nat :=
  match e.prod_db_query with
  | .num n => some n
  | .null => none

/-- Embedding of `get_stage_du` (lines 172–187): 0 when the staging path
does not exist; `IOError` during measurement yields 0; afterwards a value of
exactly 4096 (one empty-directory block) is normalized to 0.  In the source
the `== 4096` check sits after the `try`, covering both the measured value
and the 0 set by the `except` arm. -/
def get_stage_du (e : InstallEnv) : Nat :=
  if !e.stage_path_exists then 0
  else
    let stage_du :=
      match e.stage_measure with
      | some m => m
      | none => 0
    if stage_du == 4096 then 0 else stage_du

/-- Embedding of `get_stage_db_data` (lines 190–202): a `'NULL'` query
result is replaced by 0, otherwise the numeric result is used. -/
def get_stage_db_data (e : InstallEnv) : Nat :=
  match e.stage_db_query with
  | .num n => n
  | .null => 0

/-- One entry of the `install_stats_dict` built by
`create_install_stats_dictionary` (lines 205–215); field names follow the
source's dictionary keys. -/
structure InstallMetrics where
  Multisite : String
  Production : Nat
  wp_disk : Nat
  wp_data : Nat
  Staging : Nat
  ss_data : Nat
deriving DecidableEq, Repr

/-- The per-install collector: one pass of the loop body of
`create_install_stats_dictionary` (lines 205–215).  A `NULL` production
aggregate makes `get_prod_db_data` raise, so the whole run aborts: `none`. -/
def collect (vendor : String) (e : InstallEnv) : Option InstallMetrics :=
  match get_prod_db_data e with
  | none => none
  | some wp_data =>
    some { Multisite := check_multisite e.multisite_output "No"
         , Production := get_prod_du e
         , wp_disk := get_prod_db_du vendor e
         , wp_data := wp_data
         , Staging := get_stage_du e
         , ss_data := get_stage_db_data e }

/-- Embedding of `create_install_stats_dictionary` over the install list:
collect every install in order, aborting the run if any collection raises. -/
def create_install_stats_dictionary (vendor : String) :
    List InstallEnv → Option (List InstallMetrics)
  | [] => some []
  | e :: es =>
    match collect vendor e, create_install_stats_dictionary vendor es with
    | some m, some ms => some (m :: ms)
    | _, _ => none

/-! ## Vendor classification, aggregation and report rendering -/

/-- The spec's `VendorVariant`: whether the database files are locally
addressable (`db-colocated`) or remote (`db-remote`). -/
inductive VendorVariant where
  | dbRemote
  | dbColocated
deriving DecidableEq, Repr

/-- The layout decision at line 234: the provider tag `"amazon"` selects the
db-remote layout; every other tag falls into the `else` branch, the
db-colocated layout. -/
def classify_vendor (vendor : String) : VendorVariant :=
  if vendor == "amazon" then .dbRemote else .dbColocated

/-- The `sum_dictionary` of cluster-wide totals (lines 240–246 and
309–314); field names follow the source's dictionary keys. -/
structure SumDictionary where
  prod_du_ttl : Nat
  prod_db_du_ttl : Nat
  prod_db_ttl : Nat
  stage_du_ttl : Nat
  stage_db_ttl : Nat
deriving DecidableEq, Repr

/-- The freshly initialized `sum_dictionary`: every total 0. -/
def initTotals : SumDictionary :=
  { prod_du_ttl := 0, prod_db_du_ttl := 0, prod_db_ttl := 0
  , stage_du_ttl := 0, stage_db_ttl := 0 }

/-- One iteration of the summary-totals loop: the `amazon` branch
(lines 280–283) increments four totals and never touches
`prod_db_du_ttl`; the `else` branch (lines 352–356) increments all five. -/
def addMetrics (vendor : String) (t : SumDictionary) (m : InstallMetrics) :
    SumDictionary :=
  if vendor == "amazon" then
    { t with prod_du_ttl := t.prod_du_ttl + m.Production
           , prod_db_ttl := t.prod_db_ttl + m.wp_data
           , stage_du_ttl := t.stage_du_ttl + m.Staging
           , stage_db_ttl := t.stage_db_ttl + m.ss_data }
  else
    { prod_du_ttl := t.prod_du_ttl + m.Production
    , prod_db_du_ttl := t.prod_db_du_ttl + m.wp_disk
    , prod_db_ttl := t.prod_db_ttl + m.wp_data
    , stage_du_ttl := t.stage_du_ttl + m.Staging
    , stage_db_ttl := t.stage_db_ttl + m.ss_data }

/-- The aggregator: fold the summary-totals loop over the records in the
order the caller supplied them, starting from the fresh dictionary. -/
def aggregate (vendor : String) (records : List InstallMetrics) :
    SumDictionary :=
  records.foldl (addMetrics vendor) initTotals

/-- Header columns of the two table layouts: the `amazon` (db-remote)
header at lines 255–261 and the `else` (db-colocated) header at
lines 323–330. -/
def header_columns (vendor : String) : List String :=
  if vendor == "amazon" then
    ["Install", "Multisite", "Production", "Prod DB", "Staging", "Stage DB"]
  else
    ["Install", "Multisite", "Production", "Prod DB DU", "Prod DB",
     "Staging", "Staging DB"]

/-- Data cells of one table row (color codes and padding aside): the
`amazon` body at lines 270–278 omits `wp_disk`; the `else` body at
lines 341–350 renders it after Production. -/
def row_cells (vendor : String) (install : String) (m : InstallMetrics) :
    List String :=
  if vendor == "amazon" then
    [install, m.Multisite, fix_format m.Production, fix_format m.wp_data,
     fix_format m.Staging, fix_format m.ss_data]
  else
    [install, m.Multisite, fix_format m.Production, fix_format m.wp_disk,
     fix_format m.wp_data, fix_format m.Staging, fix_format m.ss_data]

/-- The `Total diskusage:` summary value: `prod_du_ttl + stage_du_ttl` in
the `amazon` branch (lines 297–299), additionally including
`prod_db_du_ttl` in the `else` branch (lines 373–376). -/
def total_diskusage_line (vendor : String) (t : SumDictionary) : String :=
  if vendor == "amazon" then
    fix_format (t.prod_du_ttl + t.stage_du_ttl)
  else
    fix_format (t.prod_du_ttl + t.prod_db_du_ttl + t.stage_du_ttl)

/-- The `Combined DB Size:` summary value, identical in both branches
(lines 300–302 and 377–379): `prod_db_ttl + stage_db_ttl`. -/
def combined_db_size_line (t : SumDictionary) : String :=
  fix_format (t.prod_db_ttl + t.stage_db_ttl)

/-! ## Helper lemmas -/

theorem padTwo_length : ∀ f, f < 100 → (padTwo f).length = 2 := by decide

theorem formatTwoDec_shape (num den : Nat) :
    ∃ whole frac : Nat, frac < 100 ∧
      formatTwoDec num den = toString whole ++ "." ++ padTwo frac ∧
      (padTwo frac).length = 2 :=
  ⟨roundHundredths num den / 100, roundHundredths num den % 100,
    Nat.mod_lt _ (by norm_num), rfl,
    padTwo_length _ (Nat.mod_lt _ (by norm_num))⟩

theorem foldl_addMetrics (v : String) (l : List InstallMetrics)
    (t : SumDictionary) :
    List.foldl (addMetrics v) t l =
      { prod_du_ttl := t.prod_du_ttl + (l.map InstallMetrics.Production).sum
      , prod_db_du_ttl := t.prod_db_du_ttl +
          (if v == "amazon" then 0 else (l.map InstallMetrics.wp_disk).sum)
      , prod_db_ttl := t.prod_db_ttl + (l.map InstallMetrics.wp_data).sum
      , stage_du_ttl := t.stage_du_ttl + (l.map InstallMetrics.Staging).sum
      , stage_db_ttl := t.stage_db_ttl + (l.map InstallMetrics.ss_data).sum }
    := by
  induction l generalizing t with
  | nil => cases t; simp
  | cons m ms ih =>
    rw [List.foldl_cons, ih]
    cases t
    by_cases h : (v == "amazon") = true <;>
      simp [addMetrics, h, SumDictionary.mk.injEq] <;> omega

/-- Sample record used to instantiate universally quantified theorems. -/
def sampleA : InstallMetrics :=
  { Multisite := "No", Production := 5000, wp_disk := 7, wp_data := 1111
  , Staging := 4096, ss_data := 22 }

/-- A second sample record. -/
def sampleB : InstallMetrics :=
  { Multisite := "Yes", Production := 12345, wp_disk := 3, wp_data := 0
  , Staging := 0, ss_data := 9 }

/-! ## Claim theorems -/

/-- C1: `fix_format` selects the unit by the thresholds 1024, 1024², 1024³,
1024⁴, a value equal to a threshold belonging to the next unit's range;
below 1024 the value is printed as a raw integer with suffix "B"; at or
above 1024 it is divided by the unit's scale and rendered with exactly two
decimal digits concatenated with the unit letter, no space; and
`fix_format 1023 = "1023B"`, `fix_format 1024 = "1.00K"`,
`fix_format 1048576 = "1.00M"`, `fix_format 1073741824 = "1.00G"`. -/
theorem fix_format_spec :
    (fix_format 1023 = "1023B" ∧ fix_format 1024 = "1.00K" ∧
     fix_format 1048576 = "1.00M" ∧ fix_format 1073741824 = "1.00G") ∧
    (∀ v : Nat, v < 1024 → fix_format v = toString v ++ "B") ∧
    (∀ v : Nat, 1024 ≤ v → v < 1048576 →
        fix_format v = formatTwoDec v 1024 ++ "K") ∧
    (∀ v : Nat, 1048576 ≤ v → v < 1073741824 →
        fix_format v = formatTwoDec v 1048576 ++ "M") ∧
    (∀ v : Nat, 1073741824 ≤ v → v < 1099511627776 →
        fix_format v = formatTwoDec v 1073741824 ++ "G") ∧
    (∀ v : Nat, 1099511627776 ≤ v →
        fix_format v = formatTwoDec v 1099511627776 ++ "T") ∧
    (∀ num den : Nat, ∃ whole frac : Nat, frac < 100 ∧
        formatTwoDec num den = toString whole ++ "." ++ padTwo frac ∧
        (padTwo frac).length = 2) := by
  refine ⟨⟨by decide, by decide, by decide, by decide⟩, ?_, ?_, ?_, ?_, ?_,
    fun num den => formatTwoDec_shape num den⟩
  · intro v h
    unfold fix_format
    rw [if_pos h]
  · intro v h1 h2
    unfold fix_format
    rw [if_neg (by omega), if_pos h2]
  · intro v h1 h2
    unfold fix_format
    rw [if_neg (by omega), if_neg (by omega), if_pos h2]
  · intro v h1 h2
    unfold fix_format
    rw [if_neg (by omega), if_neg (by omega), if_neg (by omega), if_pos h2]
  · intro v h1
    unfold fix_format
    rw [if_neg (by omega), if_neg (by omega), if_neg (by omega),
      if_neg (by omega)]

/-- Witness for C1 at the concrete input 2048 (K range). -/
theorem fix_format_spec_witness :
    fix_format 2048 = formatTwoDec 2048 1024 ++ "K" ∧
    formatTwoDec 2048 1024 = "2.00" := by
  exact ⟨fix_format_spec.2.2.1 2048 (by norm_num) (by norm_num), by decide⟩

/-- C3: aggregation is a strict sum of each numeric field across the records
and is order-independent: for every permutation of the record list the
totals are unchanged.  The `prod_db_du_ttl` field is summed in the
db-colocated branch; in the `amazon` (db-remote) branch the loop never
touches it, so it stays 0 (every collected record also carries 0 there). -/
theorem aggregate_order_independent (vendor : String)
    (l l' : List InstallMetrics) (h : l.Perm l') :
    aggregate vendor l = aggregate vendor l' ∧
    (aggregate vendor l).prod_du_ttl = (l.map InstallMetrics.Production).sum ∧
    (aggregate vendor l).prod_db_ttl = (l.map InstallMetrics.wp_data).sum ∧
    (aggregate vendor l).stage_du_ttl = (l.map InstallMetrics.Staging).sum ∧
    (aggregate vendor l).stage_db_ttl = (l.map InstallMetrics.ss_data).sum ∧
    (aggregate vendor l).prod_db_du_ttl =
      (if vendor == "amazon" then 0
       else (l.map InstallMetrics.wp_disk).sum) := by
  have hs : ∀ f : InstallMetrics → Nat, (l.map f).sum = (l'.map f).sum :=
    fun f => (h.map f).sum_eq
  unfold aggregate
  rw [foldl_addMetrics, foldl_addMetrics]
  refine ⟨?_, by simp [initTotals], by simp [initTotals],
    by simp [initTotals], by simp [initTotals], by simp [initTotals]⟩
  simp only [initTotals, hs]

/-- Witness for C3: a concrete two-record list and its transposition. -/
theorem aggregate_order_independent_witness :
    aggregate "google" [sampleA, sampleB] =
      aggregate "google" [sampleB, sampleA] :=
  (aggregate_order_independent "google" [sampleA, sampleB]
    [sampleB, sampleA] (List.Perm.swap sampleB sampleA [])).1

/-- A sample external environment for one install. -/
def sampleEnv : InstallEnv :=
  { prod_path_exists := true, prod_measure := some 999
  , stage_path_exists := true, stage_measure := some 4096
  , db_du_measure := 555, prod_db_query := .num 42
  , stage_db_query := .null, multisite_output := "1" }

/-- The record collected from `sampleEnv` under the `google` tag. -/
def sampleMetricsG : InstallMetrics :=
  { Multisite := "Yes", Production := 999, wp_disk := 555, wp_data := 42
  , Staging := 0, ss_data := 0 }

/-- The record collected from `sampleEnv` under the `amazon` tag. -/
def sampleMetricsA : InstallMetrics :=
  { Multisite := "Yes", Production := 999, wp_disk := 0, wp_data := 42
  , Staging := 0, ss_data := 0 }

/-- C2: under the db-remote variant (tag `"amazon"`) the collected
`wp_disk` (production DB disk bytes) is always 0 and the `Prod DB DU`
column is absent from the layout (rows carry exactly one cell per header
column); under the db-colocated variant (tag `"google"`) `wp_disk` is the
external `du` measurement of the database directory and the `Prod DB DU`
column is rendered, aligned with the `wp_disk` cell. -/
theorem prod_db_disk_gating (e : InstallEnv) (m : InstallMetrics)
    (i : String) :
    (collect "amazon" e = some m → m.wp_disk = 0) ∧
    "Prod DB DU" ∉ header_columns "amazon" ∧
    (row_cells "amazon" i m).length = (header_columns "amazon").length ∧
    (collect "google" e = some m → m.wp_disk = e.db_du_measure) ∧
    (header_columns "google")[3]? = some "Prod DB DU" ∧
    (row_cells "google" i m)[3]? = some (fix_format m.wp_disk) := by
  refine ⟨?_, by decide, by simp [row_cells, header_columns], ?_,
    by decide, by simp [row_cells, header_columns]⟩
  · intro h
    cases hq : e.prod_db_query with
    | num n =>
      simp only [collect, get_prod_db_data, hq, Option.some.injEq] at h
      rw [← h]
      simp [get_prod_db_du]
    | null => simp [collect, get_prod_db_data, hq] at h
  · intro h
    cases hq : e.prod_db_query with
    | num n =>
      simp only [collect, get_prod_db_data, hq, Option.some.injEq] at h
      rw [← h]
      simp [get_prod_db_du]
    | null => simp [collect, get_prod_db_data, hq] at h

/-- Witness for C2 at `sampleEnv`: the collected DB-disk field under each
vendor tag. -/
theorem prod_db_disk_gating_witness :
    sampleMetricsA.wp_disk = 0 ∧
    sampleMetricsG.wp_disk = sampleEnv.db_du_measure :=
  ⟨(prod_db_disk_gating sampleEnv sampleMetricsA "x").1 (by decide),
   (prod_db_disk_gating sampleEnv sampleMetricsG "x").2.2.2.1 (by decide)⟩

/-- C4: a raw staging measurement of exactly 4096 bytes is normalized to 0;
any other measured staging value is stored unchanged; the production
measurement is never normalized (4096 stays 4096). -/
theorem staging_4096_normalization (e : InstallEnv) (m : Nat) :
    (e.stage_path_exists = true → e.stage_measure = some 4096 →
        get_stage_du e = 0) ∧
    (e.stage_path_exists = true → e.stage_measure = some m → m ≠ 4096 →
        get_stage_du e = m) ∧
    (e.prod_path_exists = true → e.prod_measure = some m →
        get_prod_du e = m) := by
  refine ⟨?_, ?_, ?_⟩
  · intro h1 h2
    simp [get_stage_du, h1, h2]
  · intro h1 h2 h3
    simp [get_stage_du, h1, h2, h3]
  · intro h1 h2
    simp [get_prod_du, h1, h2]

/-- Witness for C4 at concrete environments: staging 4096 → 0, staging
4097 → 4097, production 4096 → 4096. -/
theorem staging_4096_normalization_witness :
    get_stage_du sampleEnv = 0 ∧
    get_stage_du { sampleEnv with stage_measure := some 4097 } = 4097 ∧
    get_prod_du { sampleEnv with prod_measure := some 4096 } = 4096 :=
  ⟨(staging_4096_normalization sampleEnv 0).1 rfl rfl,
   (staging_4096_normalization { sampleEnv with stage_measure := some 4097 }
      4097).2.1 rfl rfl (by decide),
   (staging_4096_normalization { sampleEnv with prod_measure := some 4096 }
      4096).2.2 rfl rfl⟩

/-- C5: a non-existent production or staging path yields disk usage 0, and
an I/O failure during the recursive-size measurement (the `IOError` the
source catches, modelled as `none`) is absorbed to 0, for both
measurements. -/
theorem missing_path_io_failure_zero (e : InstallEnv) :
    (e.prod_path_exists = false → get_prod_du e = 0) ∧
    (e.prod_measure = none → get_prod_du e = 0) ∧
    (e.stage_path_exists = false → get_stage_du e = 0) ∧
    (e.stage_measure = none → get_stage_du e = 0) := by
  refine ⟨?_, ?_, ?_, ?_⟩
  · intro h
    simp [get_prod_du, h]
  · intro h
    unfold get_prod_du
    cases e.prod_path_exists <;> simp [h]
  · intro h
    simp [get_stage_du, h]
  · intro h
    unfold get_stage_du
    cases e.stage_path_exists <;> simp [h]

/-- Witness for C5: an install whose paths are absent and whose
measurements fail. -/
theorem missing_path_io_failure_zero_witness :
    get_prod_du { sampleEnv with prod_path_exists := false } = 0 ∧
    get_prod_du { sampleEnv with prod_measure := none } = 0 ∧
    get_stage_du { sampleEnv with stage_path_exists := false } = 0 ∧
    get_stage_du { sampleEnv with stage_measure := none } = 0 :=
  ⟨(missing_path_io_failure_zero _).1 rfl,
   (missing_path_io_failure_zero _).2.1 rfl,
   (missing_path_io_failure_zero _).2.2.1 rfl,
   (missing_path_io_failure_zero _).2.2.2 rfl⟩

/-- An install whose production aggregate query returns `NULL`. -/
def envNullProd : InstallEnv :=
  { prod_path_exists := true, prod_measure := some 100
  , stage_path_exists := false, stage_measure := none
  , db_du_measure := 0, prod_db_query := .null
  , stage_db_query := .null, multisite_output := "" }

/-- C6 counterexample: a `NULL` result from the *production* logical DB size
aggregate query is NOT treated as 0 — `get_prod_db_data` calls
`float(run_cli_query(...))` with no `NULL` handling, so `float('NULL')`
raises `ValueError` (`none` in the embedding) and the collection aborts
rather than storing 0. -/
theorem prod_db_null_not_absorbed :
    get_prod_db_data envNullProd ≠ some 0 ∧
    get_prod_db_data envNullProd = none ∧
    collect "amazon" envNullProd = none := by decide

/-- C6 amended: only the staging aggregate query absorbs a `NULL` result to
0 (`staging_db_data_bytes` is 0 when the staging schema is absent); a
`NULL` result from the production aggregate query is an error that
propagates and aborts the per-install collection, for every vendor tag. -/
theorem null_absorption_staging_only (vendor : String) (e : InstallEnv) :
    (e.stage_db_query = .null → get_stage_db_data e = 0) ∧
    (e.prod_db_query = .null →
        get_prod_db_data e = none ∧ collect vendor e = none) := by
  constructor
  · intro h
    simp [get_stage_db_data, h]
  · intro h
    exact ⟨by simp [get_prod_db_data, h],
           by simp [collect, get_prod_db_data, h]⟩

/-- Witness for the amended C6 at `envNullProd`. -/
theorem null_absorption_staging_only_witness :
    get_stage_db_data envNullProd = 0 ∧
    collect "google" envNullProd = none :=
  ⟨(null_absorption_staging_only "google" envNullProd).1 rfl,
   ((null_absorption_staging_only "google" envNullProd).2 rfl).2⟩

/-- C7: for every record list, the `Total diskusage:` summary value is the
production total plus the staging total, with the production DB disk total
additionally included exactly when the vendor variant is db-colocated, and
the `Combined DB Size:` summary value is the production DB data total plus
the staging DB data total. -/
theorem summary_lines_spec (vendor : String)
    (records : List InstallMetrics) :
    combined_db_size_line (aggregate vendor records) =
      fix_format ((records.map InstallMetrics.wp_data).sum +
        (records.map InstallMetrics.ss_data).sum) ∧
    (classify_vendor vendor = .dbRemote →
      total_diskusage_line vendor (aggregate vendor records) =
        fix_format ((records.map InstallMetrics.Production).sum +
          (records.map InstallMetrics.Staging).sum)) ∧
    (classify_vendor vendor = .dbColocated →
      total_diskusage_line vendor (aggregate vendor records) =
        fix_format ((records.map InstallMetrics.Production).sum +
          (records.map InstallMetrics.wp_disk).sum +
          (records.map InstallMetrics.Staging).sum)) := by
  unfold aggregate
  rw [foldl_addMetrics]
  refine ⟨by simp [combined_db_size_line, initTotals], ?_, ?_⟩
  · intro h
    have hv : (vendor == "amazon") = true := by
      by_cases hc : (vendor == "amazon") = true
      · exact hc
      · simp [classify_vendor, hc] at h
    simp [total_diskusage_line, hv, initTotals]
  · intro h
    have hv : (vendor == "amazon") = false := by
      by_cases hc : (vendor == "amazon") = true
      · simp [classify_vendor, hc] at h
      · simp at hc
        simp [hc]
    simp [total_diskusage_line, hv, initTotals]

/-- Witness for C7 under the db-remote variant with one record. -/
theorem summary_lines_spec_witness :
    total_diskusage_line "amazon" (aggregate "amazon" [sampleA]) =
      fix_format (([sampleA].map InstallMetrics.Production).sum +
        ([sampleA].map InstallMetrics.Staging).sum) :=
  (summary_lines_spec "amazon" [sampleA]).2.1 rfl

/-- C8: the multisite status is `"Yes"` exactly when the external lookup
returns the truthy sentinel `"1"`, and is the default `"No"` for every
other output (a falsy sentinel such as `"0"`, or empty output when the
lookup has nothing for the install). -/
theorem multisite_status_spec (mu : String) :
    (check_multisite mu "No" = "Yes" ↔ mu = "1") ∧
    (mu ≠ "1" → check_multisite mu "No" = "No") ∧
    check_multisite "" "No" = "No" ∧ check_multisite "0" "No" = "No" := by
  refine ⟨⟨?_, ?_⟩, ?_, by decide, by decide⟩
  · intro h
    by_cases hv : (mu == "1") = true
    · exact eq_of_beq hv
    · simp [check_multisite, hv] at h
  · intro h
    simp [check_multisite, h]
  · intro h
    simp [check_multisite, h]

/-- Witness for C8 at the truthy sentinel. -/
theorem multisite_status_spec_witness :
    check_multisite "1" "No" = "Yes" :=
  (multisite_status_spec "1").1.mpr rfl

/-- Install A of the end-to-end scenario: production 2147483648 bytes, no
staging directory, production DB data 104857600 bytes. -/
def envA : InstallEnv :=
  { prod_path_exists := true, prod_measure := some 2147483648
  , stage_path_exists := false, stage_measure := none
  , db_du_measure := 0, prod_db_query := .num 104857600
  , stage_db_query := .null, multisite_output := "0" }

/-- Install B of the end-to-end scenario: production directory absent,
staging measured at exactly 4096 bytes, production DB data 0. -/
def envB : InstallEnv :=
  { prod_path_exists := false, prod_measure := none
  , stage_path_exists := true, stage_measure := some 4096
  , db_du_measure := 0, prod_db_query := .num 0
  , stage_db_query := .null, multisite_output := "0" }

/-- C9: end-to-end under vendor `"amazon"` (db-remote) with installs A and
B: collection succeeds, the aggregated totals are production 2147483648,
staging 0 and DB data 104857600, rendered `"2.00G"`, `"0B"` and
`"100.00M"`; the `Total diskusage:` summary is also `"2.00G"`. -/
theorem end_to_end_db_remote :
    (create_install_stats_dictionary "amazon" [envA, envB]).map
        (fun recs =>
          ((aggregate "amazon" recs).prod_du_ttl,
           (aggregate "amazon" recs).stage_du_ttl,
           (aggregate "amazon" recs).prod_db_ttl,
           fix_format (aggregate "amazon" recs).prod_du_ttl,
           fix_format (aggregate "amazon" recs).stage_du_ttl,
           fix_format (aggregate "amazon" recs).prod_db_ttl,
           total_diskusage_line "amazon" (aggregate "amazon" recs)))
      = some (2147483648, 0, 104857600, "2.00G", "0B", "100.00M",
              "2.00G") := by
  rfl

/-- C10: vendor classification is decided by equality with the single tag
`"amazon"`: every other tag (including unknown third tags) gets the
db-colocated layout, while production DB disk is measured only when the tag
is exactly `"google"`, so an unknown tag such as `"azure"` yields the
db-colocated layout with every `wp_disk` value and its total fixed at 0. -/
theorem vendor_classification_implicit (v : String) (e : InstallEnv)
    (m : InstallMetrics) (l : List InstallMetrics) :
    (classify_vendor v = .dbColocated ↔ v ≠ "amazon") ∧
    (v ≠ "google" → get_prod_db_du v e = 0) ∧
    (v ≠ "amazon" → header_columns v =
      ["Install", "Multisite", "Production", "Prod DB DU", "Prod DB",
       "Staging", "Staging DB"]) ∧
    (v ≠ "google" → collect v e = some m → m.wp_disk = 0) ∧
    ((∀ x ∈ l, x.wp_disk = 0) → (aggregate v l).prod_db_du_ttl = 0) ∧
    classify_vendor "azure" = .dbColocated := by
  refine ⟨?_, ?_, ?_, ?_, ?_, by decide⟩
  · constructor
    · intro h hv
      simp [classify_vendor, hv] at h
    · intro h
      simp [classify_vendor, h]
  · intro h
    simp [get_prod_db_du, h]
  · intro h
    simp [header_columns, h]
  · intro hg h
    cases hq : e.prod_db_query with
    | num n =>
      simp only [collect, get_prod_db_data, hq, Option.some.injEq] at h
      rw [← h]
      simp [get_prod_db_du, hg]
    | null => simp [collect, get_prod_db_data, hq] at h
  · intro h
    unfold aggregate
    rw [foldl_addMetrics]
    have hz : (l.map InstallMetrics.wp_disk).sum = 0 := by
      apply List.sum_eq_zero
      intro x hx
      obtain ⟨y, hy, rfl⟩ := List.mem_map.mp hx
      exact h y hy
    simp [initTotals, hz]

/-- Witness for C10 at the unknown tag `"azure"`. -/
theorem vendor_classification_implicit_witness :
    header_columns "azure" =
      ["Install", "Multisite", "Production", "Prod DB DU", "Prod DB",
       "Staging", "Staging DB"] ∧
    get_prod_db_du "azure" sampleEnv = 0 ∧
    (aggregate "azure" []).prod_db_du_ttl = 0 :=
  ⟨(vendor_classification_implicit "azure" sampleEnv sampleMetricsA
      []).2.2.1 (by decide),
   (vendor_classification_implicit "azure" sampleEnv sampleMetricsA
      []).2.1 (by decide),
   (vendor_classification_implicit "azure" sampleEnv sampleMetricsA
      []).2.2.2.2.1 (by simp)⟩

end DiskAudit
